import Mathlib

/-
  Verification development for the `particle_simulation` repository
  (a wgpu-based 2D gravitational particle simulation).

  Each Rust function relevant to the checked properties is shallowly
  embedded as a Lean definition.  Machine integers (u32/u64) are
  modelled as `Nat` with an explicit `% 2^32` / `% 2^64` at the points
  where the Rust arithmetic can wrap (release-mode wrapping semantics).
  Host-side float quantities that the properties treat as exact real
  numbers (times, positions, parameter-buffer words) are modelled as `ℚ`.
-/

/-- Modulus of the Rust `u32` type. -/
def U32_SIZE : Nat := 4294967296

/-- Modulus of the Rust `u64` type. -/
def U64_SIZE : Nat := 18446744073709551616

/-- Mathematical rounding-up: the smallest multiple of `m` that is `≥ v`
(for `m > 0`).  This is the quantity the spec's `round_up_to_multiple`
denotes; the implementation `Utils.multiple_of` is compared against it. -/
def roundUpSpec (v m : Nat) : Nat := ((v + m - 1) / m) * m

lemma roundUpSpec_of_mod_eq_zero {v m : Nat} (hm : 0 < m) (h : v % m = 0) :
    roundUpSpec v m = v := by
  obtain ⟨q, hq⟩ : m ∣ v := Nat.dvd_of_mod_eq_zero h
  subst hq
  unfold roundUpSpec
  have h1 : m * q + m - 1 = (m - 1) + q * m := by
    have h2 := Nat.mul_comm m q
    omega
  rw [h1, Nat.add_mul_div_right _ _ hm, Nat.div_eq_of_lt (by omega)]
  simp only [Nat.zero_add]
  exact Nat.mul_comm q m

lemma roundUpSpec_of_mod_ne_zero {v m : Nat} (hm : 0 < m) (h : v % m ≠ 0) :
    roundUpSpec v m = (v / m + 1) * m := by
  have hlt : v % m < m := Nat.mod_lt _ hm
  have hv := Nat.div_add_mod v m
  unfold roundUpSpec
  have h1 : v + m - 1 = (v % m - 1) + (v / m + 1) * m := by
    have h2 : (v / m + 1) * m = v / m * m + m := by ring
    have h3 := Nat.mul_comm m (v / m)
    omega
  rw [h1, Nat.add_mul_div_right _ _ hm, Nat.div_eq_of_lt (by omega)]
  simp only [Nat.zero_add]

lemma roundUpSpec_dvd (v m : Nat) : m ∣ roundUpSpec v m :=
  dvd_mul_left m _

lemma le_roundUpSpec (v m : Nat) (hm : 0 < m) : v ≤ roundUpSpec v m := by
  by_cases h : v % m = 0
  · rw [roundUpSpec_of_mod_eq_zero hm h]
  · rw [roundUpSpec_of_mod_ne_zero hm h]
    have hv := Nat.div_add_mod v m
    have hlt : v % m < m := Nat.mod_lt _ hm
    have h2 : (v / m + 1) * m = v / m * m + m := by ring
    have h3 := Nat.mul_comm m (v / m)
    omega

lemma roundUpSpec_min (v m k : Nat) (hm : 0 < m) (hdvd : m ∣ k) (hle : v ≤ k) :
    roundUpSpec v m ≤ k := by
  obtain ⟨c, hc⟩ := hdvd
  subst hc
  by_cases h : v % m = 0
  · rw [roundUpSpec_of_mod_eq_zero hm h]; exact hle
  · rw [roundUpSpec_of_mod_ne_zero hm h]
    have hv := Nat.div_add_mod v m
    have hlt : v % m < m := Nat.mod_lt _ hm
    have h3 := Nat.mul_comm m (v / m)
    have hqc : v / m + 1 ≤ c := by
      by_contra hcon
      push_neg at hcon
      have h4 : c ≤ v / m := by omega
      have h5 := Nat.mul_le_mul_left m h4
      omega
    have h6 := Nat.mul_le_mul_right m hqc
    have h7 := Nat.mul_comm c m
    omega

namespace Utils

/-- Embedding of `utils.rs::multiple_of` (u32 arithmetic):
```
pub fn multiple_of(mut value: u32, multiple: u32) -> u32 {
    let remainder = value % multiple;
    if remainder != 0 {
        value += multiple - remainder;
    }
    value
}
```
The `+=` wraps modulo `2^32` in release mode. -/
def multiple_of (value multiple : Nat) : Nat :=
  let remainder := value % multiple
  if remainder ≠ 0 then (value + (multiple - remainder)) % U32_SIZE else value

end Utils

/-- When the mathematical result fits in u32, `Utils.multiple_of`
computes exactly the mathematical round-up. -/
lemma multiple_of_eq_roundUpSpec (v m : Nat) (hm : 0 < m)
    (hfit : roundUpSpec v m < U32_SIZE) :
    Utils.multiple_of v m = roundUpSpec v m := by
  unfold Utils.multiple_of
  by_cases h : v % m = 0
  · simp only [h, ne_eq, not_true_eq_false, if_false]
    rw [roundUpSpec_of_mod_eq_zero hm h]
  · simp only [ne_eq, h, not_false_eq_true, if_true]
    have hlt : v % m < m := Nat.mod_lt _ hm
    have hv := Nat.div_add_mod v m
    have heq : v + (m - v % m) = (v / m + 1) * m := by
      have h2 : (v / m + 1) * m = v / m * m + m := by ring
      have h3 := Nat.mul_comm m (v / m)
      omega
    rw [heq, ← roundUpSpec_of_mod_ne_zero hm h, Nat.mod_eq_of_lt hfit]

/-- CLAIM C7 (corrected).  For `m > 0` and inputs whose mathematical
round-up still fits in u32, `multiple_of(v, m)` returns the smallest
multiple of `m` that is `≥ v`.  (As originally stated — for all u32
inputs — the claim fails: the u32 addition wraps, see the
counterexample theorem.) -/
theorem C7_multiple_of_correct (v m : Nat) (hm : 0 < m)
    (hfit : roundUpSpec v m < U32_SIZE) :
    m ∣ Utils.multiple_of v m ∧ v ≤ Utils.multiple_of v m ∧
      ∀ k, m ∣ k → v ≤ k → Utils.multiple_of v m ≤ k := by
  rw [multiple_of_eq_roundUpSpec v m hm hfit]
  exact ⟨roundUpSpec_dvd v m, le_roundUpSpec v m hm,
    fun k hdvd hle => roundUpSpec_min v m k hm hdvd hle⟩

/-- CLAIM C7 witness: the spec's two examples, evaluated through the
theorem at concrete inputs. -/
theorem C7_multiple_of_correct_witness :
    Utils.multiple_of 4096 256 = 4096 ∧ Utils.multiple_of 4100 256 = 4352 := by
  constructor
  · have h := C7_multiple_of_correct 4096 256 (by decide) (by decide)
    have h1 : Utils.multiple_of 4096 256 ≤ 4096 := h.2.2 4096 (by decide) (by decide)
    have h2 : 4096 ≤ Utils.multiple_of 4096 256 := h.2.1
    omega
  · have h := C7_multiple_of_correct 4100 256 (by decide) (by decide)
    have h1 : Utils.multiple_of 4100 256 ≤ 4352 := h.2.2 4352 (by decide) (by decide)
    have h2 : 4100 ≤ Utils.multiple_of 4100 256 := h.2.1
    have h3 : (256 : Nat) ∣ Utils.multiple_of 4100 256 := h.1
    obtain ⟨c, hc⟩ := h3
    omega

/-- CLAIM C7 counterexample: at `v = 4294967295 = 2^32 - 1`, `m = 256`,
the u32 addition wraps and `multiple_of` returns `0`, which is neither
`≥ v` nor the smallest multiple of 256 that is `≥ v` (which is `2^32`). -/
theorem C7_multiple_of_overflow :
    Utils.multiple_of 4294967295 256 = 0 ∧
      ¬ (4294967295 ≤ Utils.multiple_of 4294967295 256) := by
  constructor
  · rfl
  · intro h
    have h0 : Utils.multiple_of 4294967295 256 = 0 := rfl
    omega

namespace Capture

/-- Embedding of the private helper `capture.rs::multiple_of`
(lines 183-190), textually duplicating `utils.rs::multiple_of`:
```
fn multiple_of(mut value: u32, multiple: u32) -> u32 {
    let remainder = value % multiple;
    if remainder != 0 {
        value += multiple - remainder;
    }
    value
}
```
-/
def multiple_of (value multiple : Nat) : Nat :=
  let remainder := value % multiple
  if remainder ≠ 0 then (value + (multiple - remainder)) % U32_SIZE else value

/-- wgpu constant `COPY_BYTES_PER_ROW_ALIGNMENT`. -/
def COPY_BYTES_PER_ROW_ALIGNMENT : Nat := 256

/-- Staging-buffer size computed both in `CaptureModule::new` (capture.rs
lines 24-31) and in `CaptureModule::resize` (lines 76-83):
```
let buffer_size =
    multiple_of(width, wgpu::COPY_BYTES_PER_ROW_ALIGNMENT) as u64 * height as u64 * 4;
```
The multiplication is u64 arithmetic, hence the `% U64_SIZE`. -/
def buffer_size (width height : Nat) : Nat :=
  (multiple_of width COPY_BYTES_PER_ROW_ALIGNMENT * height * 4) % U64_SIZE

end Capture

/-- Helper: the duplicated rounding helper agrees with the shared one. -/
lemma capture_multiple_of_eq_utils (v m : Nat) :
    Capture.multiple_of v m = Utils.multiple_of v m := rfl

/-- CLAIM C10 (confirmed).  The private `multiple_of` defined inside
capture.rs computes the same result as `utils::multiple_of` on every
pair of u32 inputs (the two functions are textually identical). -/
theorem C10_capture_multiple_of_extensional :
    ∀ v m : Nat, Capture.multiple_of v m = Utils.multiple_of v m :=
  fun _ _ => rfl

/-- CLAIM C4 counterexample: at `width = 100`, `height = 1` the staging
buffer allocated by `CaptureModule::new` / `resize` has size
`multiple_of(100, 256) * 1 * 4 = 1024` bytes, not the claimed
`round_up_to_256(100 * 4) * 1 = 512` bytes. -/
theorem C4_buffer_size_counterexample :
    Capture.buffer_size 100 1 = 1024 ∧
      roundUpSpec (100 * 4) 256 * 1 = 512 ∧
      Capture.buffer_size 100 1 ≠ roundUpSpec (100 * 4) 256 * 1 := by
  refine ⟨rfl, rfl, ?_⟩
  intro h
  have h1 : Capture.buffer_size 100 1 = 1024 := rfl
  have h2 : roundUpSpec (100 * 4) 256 * 1 = 512 := rfl
  omega

/-- CLAIM C4 (corrected).  The CPU-mappable staging buffer created by
`CaptureModule::new` and recreated by `CaptureModule::resize` has size
`round_up_to_256(width) * height * 4` bytes (the code rounds the pixel
width, not the row byte count `width * 4`, up to a multiple of 256),
whenever that quantity incurs no u32/u64 overflow. -/
theorem C4_buffer_size_formula (width height : Nat)
    (hfit32 : roundUpSpec width 256 < U32_SIZE)
    (hfit64 : roundUpSpec width 256 * height * 4 < U64_SIZE) :
    Capture.buffer_size width height = roundUpSpec width 256 * height * 4 := by
  unfold Capture.buffer_size
  rw [capture_multiple_of_eq_utils,
    show Capture.COPY_BYTES_PER_ROW_ALIGNMENT = 256 from rfl,
    multiple_of_eq_roundUpSpec width 256 (by omega) hfit32,
    Nat.mod_eq_of_lt hfit64]

/-- CLAIM C4 witness: the amended formula evaluated at 1920 x 1080. -/
theorem C4_buffer_size_formula_witness :
    Capture.buffer_size 1920 1080 = 8847360 := by
  have h := C4_buffer_size_formula 1920 1080 (by decide) (by decide)
  have h2 : roundUpSpec 1920 256 * 1080 * 4 = 8847360 := by decide
  omega

namespace ParticleGen

/-- Embedding of the `Particle` record built by
`particle.rs::generate_particles` (positions over exact rationals;
`Vec2` components are spelled out as pairs):
```
let particle = Particle {
    position: chunk + dir * d,
    velocity: Vec2::ZERO,
    radius: 0.1,
    mass: 0.1,
};
```
-/
structure GenParticle where
  position : ℚ × ℚ
  velocity : ℚ × ℚ
  radius : ℚ
  mass : ℚ
deriving DecidableEq

/-- One particle of a cluster: `chunk` is the cluster's random center,
`dir` the per-particle random direction (each axis drawn from
`[-1, 1]`), `d` the random magnitude drawn from `[0, 4]`. -/
def mkParticle (chunk dir : ℚ × ℚ) (d : ℚ) : GenParticle :=
  { position := (chunk.1 + dir.1 * d, chunk.2 + dir.2 * d)
    velocity := (0, 0)
    radius := 1 / 10
    mass := 1 / 10 }

/-- Embedding of the double loop of `particle.rs::generate_particles`:
for each chunk `c < num_particles / 128` one random center `centers c`
is drawn, then 128 particles are written at interleaved buffer indices
`i = c + p * (num_particles / 128)`.  The random draws are abstracted
as the functions `centers`, `dirs`, `mags` (one outcome per loop
iteration); the result is the list of `(index, particle)` writes. -/
def generate_particles (num_particles : Nat) (centers : Nat → ℚ × ℚ)
    (dirs : Nat → Nat → ℚ × ℚ) (mags : Nat → Nat → ℚ) :
    List (Nat × GenParticle) :=
  (List.range (num_particles / 128)).flatMap fun c =>
    (List.range 128).map fun p =>
      (c + p * (num_particles / 128), mkParticle (centers c) (dirs c p) (mags c p))

/-- The cluster centers drawn by the outer loop. -/
def cluster_centers (num_particles : Nat) (centers : Nat → ℚ × ℚ) :
    List (ℚ × ℚ) :=
  (List.range (num_particles / 128)).map centers

/-- Squared Euclidean distance between two points. -/
def distSq (a b : ℚ × ℚ) : ℚ := (a.1 - b.1) ^ 2 + (a.2 - b.2) ^ 2

end ParticleGen

/-- CLAIM C3 counterexample: the RNG outcome `dir = (1, 1)`, `d = 4`
(both inside the sampled ranges `[-1,1]` per axis and `[0,4]`) places
the particle at squared distance `32 > 4^2` from its cluster center,
i.e. at Euclidean distance `4 * sqrt 2 > 4`.  The offending write is a
member of a concrete `generate_particles` run with `N = 128`. -/
theorem C3_distance_counterexample :
    (0, ParticleGen.mkParticle (0, 0) (1, 1) 4) ∈
        ParticleGen.generate_particles 128 (fun _ => (0, 0)) (fun _ _ => (1, 1))
          (fun _ _ => 4) ∧
      (-1 : ℚ) ≤ 1 ∧ (1 : ℚ) ≤ 1 ∧ (0 : ℚ) ≤ 4 ∧ (4 : ℚ) ≤ 4 ∧
      ParticleGen.distSq (ParticleGen.mkParticle (0, 0) (1, 1) 4).position (0, 0) = 32 ∧
      ¬ ParticleGen.distSq (ParticleGen.mkParticle (0, 0) (1, 1) 4).position (0, 0) ≤ 4 ^ 2 := by
  refine ⟨?_, by norm_num, by norm_num, by norm_num, by norm_num, ?_, ?_⟩
  · unfold ParticleGen.generate_particles
    simp only [List.mem_flatMap, List.mem_map, List.mem_range]
    exact ⟨0, by norm_num, 0, by norm_num, by norm_num⟩
  · unfold ParticleGen.distSq ParticleGen.mkParticle
    norm_num
  · unfold ParticleGen.distSq ParticleGen.mkParticle
    norm_num

/-- CLAIM C3 (corrected).  For every `N` and every RNG outcome within
the sampled ranges, each generated particle lies within Euclidean
distance `4 * sqrt 2` (squared distance `32`) of its cluster's center
(the cluster of the write at buffer index `i` is `i % (N / 128)` under
the interleaved layout), and the generator draws exactly `N / 128`
cluster centers.  The originally claimed bound of distance `4` is too
small, see the counterexample. -/
theorem C3_generate_particles_bounded (N : Nat) (centers : Nat → ℚ × ℚ)
    (dirs : Nat → Nat → ℚ × ℚ) (mags : Nat → Nat → ℚ)
    (hdx : ∀ c p, -1 ≤ (dirs c p).1 ∧ (dirs c p).1 ≤ 1)
    (hdy : ∀ c p, -1 ≤ (dirs c p).2 ∧ (dirs c p).2 ≤ 1)
    (hd : ∀ c p, 0 ≤ mags c p ∧ mags c p ≤ 4) :
    (∀ x ∈ ParticleGen.generate_particles N centers dirs mags,
        ParticleGen.distSq x.2.position (centers (x.1 % (N / 128))) ≤ 32) ∧
      (ParticleGen.cluster_centers N centers).length = N / 128 := by
  constructor
  · intro x hx
    unfold ParticleGen.generate_particles at hx
    simp only [List.mem_flatMap, List.mem_map, List.mem_range] at hx
    obtain ⟨c, hc, p, hp, hxeq⟩ := hx
    subst hxeq
    have hidx : (c + p * (N / 128)) % (N / 128) = c := by
      rw [Nat.add_mul_mod_self_right]
      exact Nat.mod_eq_of_lt hc
    simp only [hidx]
    unfold ParticleGen.distSq ParticleGen.mkParticle
    simp only
    have h1 := hdx c p
    have h2 := hdy c p
    have h3 := hd c p
    set dx := (dirs c p).1 with hdxdef
    set dy := (dirs c p).2 with hdydef
    set d := mags c p with hddef
    have hx2 : dx ^ 2 ≤ 1 := by nlinarith [h1.1, h1.2]
    have hy2 : dy ^ 2 ≤ 1 := by nlinarith [h2.1, h2.2]
    have hd2 : d ^ 2 ≤ 16 := by nlinarith [h3.1, h3.2]
    have hd0 : 0 ≤ d ^ 2 := sq_nonneg d
    have hkey : (dx * d) ^ 2 + (dy * d) ^ 2 ≤ 32 := by
      have e1 : (dx * d) ^ 2 = dx ^ 2 * d ^ 2 := by ring
      have e2 : (dy * d) ^ 2 = dy ^ 2 * d ^ 2 := by ring
      nlinarith [mul_le_mul_of_nonneg_right hx2 hd0,
        mul_le_mul_of_nonneg_right hy2 hd0]
    calc ((centers c).1 + dx * d - (centers c).1) ^ 2 +
          ((centers c).2 + dy * d - (centers c).2) ^ 2
        = (dx * d) ^ 2 + (dy * d) ^ 2 := by ring
      _ ≤ 32 := hkey
  · unfold ParticleGen.cluster_centers
    simp

/-- CLAIM C3 witness: the amended bound applied to a concrete run
(`N = 128`, center `(0,0)`, direction `(1,0)`, magnitude `1`). -/
theorem C3_generate_particles_bounded_witness :
    ParticleGen.distSq
        (ParticleGen.mkParticle (0, 0) (1, 0) 1).position
        ((fun _ => ((0 : ℚ), (0 : ℚ))) ((0 : Nat) % (128 / 128))) ≤ 32 := by
  have h := (C3_generate_particles_bounded 128 (fun _ => (0, 0)) (fun _ _ => (1, 0))
      (fun _ _ => 1) (fun _ _ => by norm_num) (fun _ _ => by norm_num)
      (fun _ _ => by norm_num)).1
  exact h (0, ParticleGen.mkParticle (0, 0) (1, 0) 1)
    (by unfold ParticleGen.generate_particles
        simp only [List.mem_flatMap, List.mem_map, List.mem_range]
        exact ⟨0, by norm_num, 0, by norm_num, by norm_num⟩)

namespace Physics

/-- Modelled from the spec: the canonical ping-pong `PhysicsModule` is
missing from the source tree (the checked-in physics.rs is the
superseded two-kernel gravity+collision variant, while main.rs,
particle.rs and follow.rs call the ping-pong API
`particle_buffers : [Buffer; 2]`, `current`, `current_buffer()`,
`resize_buffers()`).  Per spec section 4.4 / 9, the module keeps two
ping-pong particle buffer slots plus one "current" index; a dispatch
writes the slot that is not current and then flips the index so
downstream consumers see the freshly written slot.  The index is
modelled as `Bool` (`false` = slot 0, `true` = slot 1) and each slot's
contents as a write-generation counter. -/
structure PingPong where
  written : Bool → Nat
  current : Bool

/-- Modelled from the spec: one physics dispatch (`begin_pass`): write
the not-current slot, then flip `current`. -/
def dispatch (s : PingPong) : PingPong :=
  { written := Function.update s.written (!s.current) (s.written (!s.current) + 1)
    current := !s.current }

/-- Iterated dispatches. -/
def dispatchN (s : PingPong) : Nat → PingPong
  | 0 => s
  | n + 1 => dispatch (dispatchN s n)

/-- Modelled from the spec: `current_buffer()` — the slot index of the
buffer reference handed to the render and capture passes
(main.rs lines 384, 401). -/
def current_buffer (s : PingPong) : Bool := s.current

/-- The slot index passed to the follow pass
(`follow_module.begin_pass(&mut encoder, physics_module.current)`,
main.rs line 392). -/
def follow_index (s : PingPong) : Bool := s.current

end Physics

/-- CLAIM C1 (confirmed, modelled from the spec).  After every physics
dispatch the single `current` index designates exactly one slot, and it
differs from the slot current immediately before the dispatch; over `n`
dispatches the index alternates deterministically; and the render,
follow and capture consumers all read the slot the dispatch has just
written. -/
theorem C1_pingpong_invariant (s : Physics.PingPong) (n : Nat) :
    (Physics.dispatch s).current ≠ s.current ∧
      (∀ j, (Physics.dispatch s).current = j ↔ j ≠ s.current) ∧
      (Physics.dispatchN s n).current =
        (if n % 2 = 0 then s.current else !s.current) ∧
      (Physics.dispatch s).written (Physics.dispatch s).current =
        s.written (!s.current) + 1 ∧
      Physics.current_buffer (Physics.dispatch s) = (Physics.dispatch s).current ∧
      Physics.follow_index (Physics.dispatch s) = (Physics.dispatch s).current := by
  have hflip : ∀ t : Physics.PingPong, (Physics.dispatch t).current = !t.current :=
    fun t => rfl
  refine ⟨?_, ?_, ?_, ?_, rfl, rfl⟩
  · rw [hflip]; cases s.current <;> simp
  · intro j
    rw [hflip]
    cases s.current <;> cases j <;> simp
  · induction n with
    | zero => simp [Physics.dispatchN]
    | succ k ih =>
      show (Physics.dispatch (Physics.dispatchN s k)).current = _
      rw [hflip, ih]
      by_cases hk : k % 2 = 0
      · have hk1 : (k + 1) % 2 ≠ 0 := by omega
        simp [hk, hk1]
      · have hk1 : (k + 1) % 2 = 0 := by omega
        simp [hk, hk1]
  · simp [Physics.dispatch, Function.update]

/-- CLAIM C1 witness: at the concrete initial state (slot 0 current),
one dispatch makes slot 1 current. -/
theorem C1_pingpong_invariant_witness :
    (Physics.dispatch { written := fun _ => 0, current := false }).current = true :=
  ((C1_pingpong_invariant { written := fun _ => 0, current := false } 0).2.1
    true).mpr (by simp)

namespace Physics

/-- Embedding of the physics uniform parameter buffer: two 4-byte f32
words (modelled over ℚ); word 0 occupies bytes 0..3 and holds
`delta_time`, word 1 occupies bytes 4..7 and holds
`gravitational_constant` (physics.rs `param_buffer`, initialized from
`[1.0f32, gravitational_constant]`). -/
structure ParamBuffer where
  words : Fin 2 → ℚ

/-- Embedding of `PhysicsModule::new`'s parameter-buffer initialization. -/
def new_param_buffer (g : ℚ) : ParamBuffer :=
  { words := fun i => if i = 0 then 1 else g }

/-- Embedding of `update_delta_time` (physics.rs lines 183-185): writes
the 4 bytes of `dt` at byte offset 0, i.e. word 0. -/
def update_delta_time (b : ParamBuffer) (dt : ℚ) : ParamBuffer :=
  { words := Function.update b.words 0 dt }

/-- Embedding of `update_gravitational_constant` (physics.rs lines
187-189): writes 4 bytes at byte offset 4, i.e. word 1. -/
def update_gravitational_constant (b : ParamBuffer) (g : ℚ) : ParamBuffer :=
  { words := Function.update b.words 1 g }

/-- Embedding of the delta-time push in the idle tick (main.rs line
260): `physics_module.update_delta_time(&queue, args.time_scale)`.
The frame's measured delta time (`framepace.frametime()`) is available
to the orchestrator but is not part of the pushed value. -/
def tick_push_delta_time (b : ParamBuffer) (time_scale _measured_frametime : ℚ) :
    ParamBuffer :=
  update_delta_time b time_scale

end Physics

/-- CLAIM C2 counterexample: on a tick whose measured frame time is
`1/2` s with the default time scale `1/60`, the value written into the
delta-time word is `1/60`, not the claimed
`measured_dt * time_scale = 1/120`. -/
theorem C2_delta_time_counterexample :
    (Physics.tick_push_delta_time (Physics.new_param_buffer (1 / 10)) (1 / 60)
          (1 / 2)).words 0 = 1 / 60 ∧
      (Physics.tick_push_delta_time (Physics.new_param_buffer (1 / 10)) (1 / 60)
          (1 / 2)).words 0 ≠ (1 / 2) * (1 / 60) := by
  constructor
  · simp [Physics.tick_push_delta_time, Physics.update_delta_time, Function.update]
  · simp [Physics.tick_push_delta_time, Physics.update_delta_time, Function.update]

/-- CLAIM C2 (corrected).  On every idle tick the orchestrator writes
the configured time-scale constant itself — not the measured frame
delta time multiplied by it — into the delta-time word (bytes 0..3) of
the physics parameter buffer; the gravitational-constant word is left
untouched.  The pushed value is therefore a fixed time step,
independent of the measured frame time. -/
theorem C2_delta_time_push (b : Physics.ParamBuffer) (time_scale measured : ℚ) :
    (Physics.tick_push_delta_time b time_scale measured).words 0 = time_scale ∧
      (Physics.tick_push_delta_time b time_scale measured).words 1 = b.words 1 := by
  constructor
  · simp [Physics.tick_push_delta_time, Physics.update_delta_time, Function.update]
  · simp [Physics.tick_push_delta_time, Physics.update_delta_time, Function.update]

/-- CLAIM C2 witness: the amended statement at concrete values. -/
theorem C2_delta_time_push_witness :
    (Physics.tick_push_delta_time (Physics.new_param_buffer (1 / 10)) (1 / 60)
          (1 / 2)).words 1 = (Physics.new_param_buffer (1 / 10)).words 1 :=
  (C2_delta_time_push (Physics.new_param_buffer (1 / 10)) (1 / 60) (1 / 2)).2

namespace Orchestrator

/-- main.rs constant `PARTICLES_PER_WORKGROUP`. -/
def PARTICLES_PER_WORKGROUP : Nat := 256

/-- Embedding of the inline capacity rounding in the Regenerate handler
(main.rs lines 309-317, identical to the startup code at lines 88-92):
```
let buffer_particles = if new_num_particles % PARTICLES_PER_WORKGROUP > 0 {
    new_num_particles + PARTICLES_PER_WORKGROUP
        - new_num_particles % PARTICLES_PER_WORKGROUP
} else {
    new_num_particles
};
```
u32 arithmetic; the wrapping add/sub chain equals the mathematical
value reduced `% 2^32`. -/
def buffer_particles (p : Nat) : Nat :=
  if p % PARTICLES_PER_WORKGROUP > 0 then
    (p + PARTICLES_PER_WORKGROUP - p % PARTICLES_PER_WORKGROUP) % U32_SIZE
  else p

/-- Modelled from the spec: `PhysicsModule::resize_buffers` is part of
the ping-pong physics module missing from the source tree; per spec
section 4.4 it reallocates both particle buffers (and bind groups) at
the given capacity, discarding contents.  Only the allocated capacity
is relevant here. -/
structure PhysicsBuffers where
  capacity : Nat

/-- Modelled from the spec: reallocation at the requested capacity. -/
def resize_buffers (capacity : Nat) : PhysicsBuffers :=
  { capacity := capacity }

/-- State touched by the capture/framerate interplay of one idle tick
(main.rs `Event::AboutToWait`): the capture-enabled flag, the target
framerate, the number of frames appended to `frame_buffer.bin`, and the
number of warnings logged. -/
structure TickState where
  capture_enabled : Bool
  framerate : Nat
  frames_written : Nat
  warn_count : Nat
deriving DecidableEq

/-- The GUI interactions that can occur during step 6 of the tick: the
Settings panel's framerate drag-value (main.rs line 279) and the
Capture panel's enabled checkbox (main.rs line 359).  `none` means the
user did not touch the widget this tick. -/
structure GuiEdits where
  set_framerate : Option Nat
  set_capture_enabled : Option Bool
deriving DecidableEq

/-- Embedding of one idle tick's capture-relevant control flow
(main.rs lines 254-441), in program order:
1. lines 255-258: if capture is enabled and the framerate is 0, force
   capture off and log a warning;
2. lines 274-371 (step 6): the GUI may edit the framerate and the
   capture-enabled flag;
3. lines 396-413: if capture is (still/now) enabled, the offscreen pass
   runs and `get_frame` appends one frame to the output file. -/
def tick (s : TickState) (gui : GuiEdits) : TickState :=
  let warn := s.capture_enabled && s.framerate == 0
  let enabled1 := if warn then false else s.capture_enabled
  let framerate2 := gui.set_framerate.getD s.framerate
  let enabled2 := gui.set_capture_enabled.getD enabled1
  { capture_enabled := enabled2
    framerate := framerate2
    frames_written := if enabled2 then s.frames_written + 1 else s.frames_written
    warn_count := if warn then s.warn_count + 1 else s.warn_count }

end Orchestrator

/-- CLAIM C5 counterexample: with the framerate 0 for the whole tick,
capture disabled at the start, and the user enabling capture through
the GUI checkbox during step 6, the tick ends with capture still
enabled, no warning logged, and one frame written to the output file —
a capture readback runs in a tick in which the framerate is 0, and the
enabling is not reverted within that tick. -/
theorem C5_capture_gui_enable_counterexample :
    Orchestrator.tick
        { capture_enabled := false, framerate := 0, frames_written := 0, warn_count := 0 }
        { set_framerate := none, set_capture_enabled := some true } =
      { capture_enabled := true, framerate := 0, frames_written := 1, warn_count := 0 } := by
  rfl

/-- CLAIM C5 (corrected).  The force-disable check runs once, at the
start of the idle tick: if capture is enabled at the start of a tick
whose framerate is 0, capture is force-disabled then, a warning is
logged, and — provided the GUI checkbox does not (re-)enable capture
mid-tick — no frame is written to the output file during that tick.
A mid-tick GUI enable escapes the check until the start of the next
tick (see the counterexample). -/
theorem C5_capture_force_disable (s : Orchestrator.TickState)
    (gui : Orchestrator.GuiEdits) (hf : s.framerate = 0)
    (hgui : gui.set_capture_enabled ≠ some true) :
    (Orchestrator.tick s gui).capture_enabled = false ∧
      (Orchestrator.tick s gui).frames_written = s.frames_written ∧
      (Orchestrator.tick s gui).warn_count =
        (if s.capture_enabled then s.warn_count + 1 else s.warn_count) := by
  obtain ⟨ce, fr, fw, wc⟩ := s
  obtain ⟨gfr, gce⟩ := gui
  simp only at hf hgui
  subst hf
  cases gce with
  | none => cases ce <;> simp [Orchestrator.tick]
  | some b =>
    cases b with
    | false => cases ce <;> simp [Orchestrator.tick]
    | true => exact absurd rfl hgui

/-- CLAIM C5 witness: a tick starting with capture enabled and
framerate 0, no GUI interaction: capture is disabled, one warning is
logged, no frame is written. -/
theorem C5_capture_force_disable_witness :
    (Orchestrator.tick
          { capture_enabled := true, framerate := 0, frames_written := 5, warn_count := 0 }
          { set_framerate := none, set_capture_enabled := none }).capture_enabled = false ∧
      (Orchestrator.tick
          { capture_enabled := true, framerate := 0, frames_written := 5, warn_count := 0 }
          { set_framerate := none, set_capture_enabled := none }).frames_written = 5 := by
  have h := C5_capture_force_disable
    { capture_enabled := true, framerate := 0, frames_written := 5, warn_count := 0 }
    { set_framerate := none, set_capture_enabled := none } rfl (by simp)
  exact ⟨h.1, h.2.1⟩

/-- Helper: the inline rounding in main.rs equals `utils::multiple_of`. -/
lemma buffer_particles_eq_multiple_of (p : Nat) :
    Orchestrator.buffer_particles p = Utils.multiple_of p 256 := by
  unfold Orchestrator.buffer_particles Utils.multiple_of
    Orchestrator.PARTICLES_PER_WORKGROUP
  by_cases h : p % 256 = 0
  · simp [h]
  · have hlt : p % 256 < 256 := Nat.mod_lt _ (by norm_num)
    have hpos : p % 256 > 0 := Nat.pos_of_ne_zero h
    simp only [hpos, if_true, ne_eq, h, not_false_eq_true]
    congr 1
    omega

/-- CLAIM C8 counterexample: at the new particle count
`P = 4294967295 = 2^32 - 1` the u32 rounding wraps to `0`, so the
buffers are resized to capacity `0`, not to
`round_up_to_multiple(P, 256) = 2^32`. -/
theorem C8_capacity_overflow :
    (Orchestrator.resize_buffers
          (Orchestrator.buffer_particles 4294967295)).capacity = 0 ∧
      ¬ (4294967295 ≤ (Orchestrator.resize_buffers
          (Orchestrator.buffer_particles 4294967295)).capacity) := by
  constructor
  · rfl
  · intro hcon
    have h0 : (Orchestrator.resize_buffers
        (Orchestrator.buffer_particles 4294967295)).capacity = 0 := rfl
    omega

/-- CLAIM C8 (corrected).  For every new particle count `P > 0`:
whenever the rounded-up capacity fits in u32, the Regenerate handler
resizes the physics buffers to capacity `round_up_to_multiple(P, 256)`
(for `P > 2^32 - 256` the u32 rounding wraps, see the counterexample);
and — for every such `P`, with no fitting condition — every particle
written by the subsequent regeneration has zero velocity and radius and
mass both equal to `0.1`. -/
theorem C8_regenerate (P : Nat) (centers : Nat → ℚ × ℚ)
    (dirs : Nat → Nat → ℚ × ℚ) (mags : Nat → Nat → ℚ)
    (_hP : 0 < P) :
    (roundUpSpec P 256 < U32_SIZE →
        (Orchestrator.resize_buffers (Orchestrator.buffer_particles P)).capacity =
          roundUpSpec P 256) ∧
      ∀ x ∈ ParticleGen.generate_particles P centers dirs mags,
        x.2.velocity = (0, 0) ∧ x.2.radius = 1 / 10 ∧ x.2.mass = 1 / 10 := by
  constructor
  · intro hfit
    show Orchestrator.buffer_particles P = roundUpSpec P 256
    rw [buffer_particles_eq_multiple_of,
      multiple_of_eq_roundUpSpec P 256 (by norm_num) hfit]
  · intro x hx
    unfold ParticleGen.generate_particles at hx
    simp only [List.mem_flatMap, List.mem_map, List.mem_range] at hx
    obtain ⟨c, hc, p, hp, hxeq⟩ := hx
    subst hxeq
    exact ⟨rfl, rfl, rfl⟩

/-- CLAIM C8 witness: regenerating at `P = 300` allocates capacity
`512 = round_up_to_multiple(300, 256)`, and the particle written first
(cluster 0, slot 0) has zero velocity. -/
theorem C8_regenerate_witness :
    (Orchestrator.resize_buffers (Orchestrator.buffer_particles 300)).capacity = 512 ∧
      (ParticleGen.mkParticle (0, 0) (1, 0) 1).velocity = (0, 0) := by
  have h := C8_regenerate 300 (fun _ => (0, 0)) (fun _ _ => (1, 0)) (fun _ _ => 1)
      (by norm_num)
  constructor
  · have h1 := h.1 (by decide)
    have h2 : roundUpSpec 300 256 = 512 := by decide
    omega
  · exact (h.2 (0, ParticleGen.mkParticle (0, 0) (1, 0) 1)
      (by unfold ParticleGen.generate_particles
          simp only [List.mem_flatMap, List.mem_map, List.mem_range]
          exact ⟨0, by norm_num, 0, by norm_num, by norm_num⟩)).1

namespace Follow

/-- Embedding of follow.rs `InfoOutput` (all components over ℚ). -/
structure InfoOutput where
  center_of_mass : ℚ × ℚ
  min_position : ℚ × ℚ
  max_position : ℚ × ℚ
  avg_velocity : ℚ × ℚ
deriving DecidableEq

/-- Embedding of `FollowModule::get_data` (follow.rs lines 183-201):
`self.enabled.then_some(())?` returns `None` when the module is
disabled; otherwise the staging map is awaited and the record is read
on `Ok(Ok(()))`, with `None` returned when the map did not resolve
successfully.  `map_ok` abstracts the outcome of the asynchronous map;
`staging` the bytes the successful map exposes. -/
def get_data (enabled : Bool) (map_ok : Bool) (staging : InfoOutput) :
    Option InfoOutput :=
  if enabled = false then none
  else if map_ok then some staging else none

/-- The camera-automation state the follow readback can mutate
(main.rs: `follow_module.info`, `app_state.view_offset`,
`app_state.view_zoom`). -/
structure CameraState where
  info : InfoOutput
  view_offset : ℚ × ℚ
  view_zoom : ℚ
deriving DecidableEq

/-- Embedding of the follow readback step of the idle tick (main.rs
lines 416-438): when follow is enabled and `get_data` yields a record,
store it, then per the toggles set the offset to the negated center of
mass and the zoom to `size.length_recip().powf(0.75)` — the latter is
an irrational float expression abstracted as the function `azoom` of
the stored record.  When `get_data` yields `None` (or follow is
disabled) nothing changes. -/
def follow_step (enabled follow_center_of_mass auto_zoom map_ok : Bool)
    (staging : InfoOutput) (azoom : InfoOutput → ℚ) (s : CameraState) :
    CameraState :=
  if enabled then
    match get_data enabled map_ok staging with
    | some output =>
      let s1 : CameraState := { s with info := output }
      let s2 : CameraState :=
        if follow_center_of_mass then
          { s1 with view_offset := (-output.center_of_mass.1, -output.center_of_mass.2) }
        else s1
      if auto_zoom then { s2 with view_zoom := azoom s2.info } else s2
    | none => s
  else s

end Follow

/-- CLAIM C9 (confirmed).  `get_data` returns `None` exactly when the
follow module is disabled or the asynchronous staging-buffer map does
not resolve successfully, and whenever it returns `None` the stored
follow summary, the camera offset and the camera zoom are all left
unchanged for that frame. -/
theorem C9_follow_none_skips (enabled map_ok fcom az : Bool)
    (staging : Follow.InfoOutput) (azoom : Follow.InfoOutput → ℚ)
    (s : Follow.CameraState) :
    (Follow.get_data enabled map_ok staging = none ↔
        enabled = false ∨ map_ok = false) ∧
      (Follow.get_data enabled map_ok staging = none →
        Follow.follow_step enabled fcom az map_ok staging azoom s = s) := by
  constructor
  · cases enabled <;> cases map_ok <;> simp [Follow.get_data]
  · intro h
    cases enabled with
    | false => simp [Follow.follow_step]
    | true =>
      cases map_ok with
      | false => simp [Follow.follow_step, Follow.get_data]
      | true => simp [Follow.get_data] at h

/-- CLAIM C9 witness: with the module disabled (map successful), the
camera state passes through one follow step unchanged. -/
theorem C9_follow_none_skips_witness :
    Follow.follow_step false true false true
        { center_of_mass := (1, 2), min_position := (0, 0), max_position := (3, 4), avg_velocity := (0, 0) }
        (fun _ => 1)
        { info := { center_of_mass := (0, 0), min_position := (0, 0), max_position := (0, 0), avg_velocity := (0, 0) }, view_offset := (5, 6), view_zoom := 2 } =
      { info := { center_of_mass := (0, 0), min_position := (0, 0), max_position := (0, 0), avg_velocity := (0, 0) }, view_offset := (5, 6), view_zoom := 2 } :=
  (C9_follow_none_skips false true true false
    { center_of_mass := (1, 2), min_position := (0, 0), max_position := (3, 4), avg_velocity := (0, 0) }
    (fun _ => 1)
    { info := { center_of_mass := (0, 0), min_position := (0, 0), max_position := (0, 0), avg_velocity := (0, 0) }, view_offset := (5, 6), view_zoom := 2 }).2 rfl

namespace Framepace

/-- f32::EPSILON = 2^-23, the threshold in `end_frame`'s guard. -/
def EPSILON : ℚ := 1 / 8388608

/-- The fixed 100-microsecond accuracy margin in `end_frame`. -/
def ACCURACY : ℚ := 1 / 10000

/-- Embedding of framepace.rs `Framepacer`: two recorded instants
(absolute times over ℚ; slot index as `Bool`, `false` = slot 0) and the
`current` index.  Note that per the source, `begin_frame` writes the
slot `next()` but does NOT advance `current`; only `end_frame` advances
it. -/
structure Framepacer where
  instants : Bool → ℚ
  current : Bool

/-- Embedding of `Framepacer::new()` at absolute time `now`:
`instants: [Instant::now(); 2], current: 0`. -/
def new_pacer (now : ℚ) : Framepacer :=
  { instants := fun _ => now, current := false }

/-- Embedding of `next()`: `(current + 1) % 2`. -/
def next_slot (s : Framepacer) : Bool := !s.current

/-- Embedding of `frametime()` when the wall clock reads `now`:
`instants[current].elapsed()`. -/
def frametime (s : Framepacer) (now : ℚ) : ℚ := now - s.instants s.current

/-- Embedding of `begin_frame()` called at time `now`:
`instants[next()] = Instant::now()` — `current` is left unchanged. -/
def begin_frame (s : Framepacer) (now : ℚ) : Framepacer :=
  { s with instants := Function.update s.instants (next_slot s) now }

/-- Embedding of the return time of `end_frame(limit_frametime)` called
at time `now`, under an ideal clock: `thread::sleep(d)` wakes exactly
`d` seconds later and the yield spin exits at the first instant at
which `frametime() >= limit_frametime`, so the modelled value is the
earliest time at which the real call can return.  Every ℚ is finite, so
the `is_finite()` guard always passes. -/
def end_frame_ret (s : Framepacer) (limit_frametime now : ℚ) : ℚ :=
  if EPSILON < limit_frametime then
    if 0 < limit_frametime - frametime s now - ACCURACY then
      s.instants s.current + limit_frametime
    else now
  else now

/-- Embedding of the state change of `end_frame`: `current = next()`. -/
def end_frame_state (s : Framepacer) : Framepacer :=
  { s with current := next_slot s }

end Framepace

/-- CLAIM C6 (code bug).  Trace with `limit = 1` s: the pacer is created
at t = 0; frame 1 calls `begin_frame` at t = 0 and its `end_frame`
(called at t = 0) correctly returns at t = 1; frame 2 then calls
`begin_frame` at t = 1 and its `end_frame`, invoked immediately
afterwards at t = 1, returns at once — 0 seconds after frame 2's
`begin_frame`, far less than `1 - 0.0001`.  The cause: `begin_frame`
records into slot `next()` but does not advance `current` (end_frame
does), so `frametime()` — and hence the pacing — measures from the
PREVIOUS frame's `begin_frame`, and every other frame goes unpaced. -/
theorem C6_end_frame_returns_early :
    Framepace.end_frame_ret (Framepace.begin_frame (Framepace.new_pacer 0) 0) 1 0 = 1 ∧
      Framepace.end_frame_ret
          (Framepace.begin_frame
            (Framepace.end_frame_state (Framepace.begin_frame (Framepace.new_pacer 0) 0)) 1)
          1 1 = 1 ∧
      Framepace.end_frame_ret
            (Framepace.begin_frame
              (Framepace.end_frame_state (Framepace.begin_frame (Framepace.new_pacer 0) 0)) 1)
            1 1 - 1 <
        1 - Framepace.ACCURACY := by
  refine ⟨?_, ?_, ?_⟩
  · norm_num [Framepace.end_frame_ret, Framepace.frametime, Framepace.begin_frame,
      Framepace.new_pacer, Framepace.next_slot, Framepace.EPSILON, Framepace.ACCURACY,
      Function.update]
  · norm_num [Framepace.end_frame_ret, Framepace.frametime, Framepace.begin_frame,
      Framepace.end_frame_state, Framepace.new_pacer, Framepace.next_slot,
      Framepace.EPSILON, Framepace.ACCURACY, Function.update]
  · norm_num [Framepace.end_frame_ret, Framepace.frametime, Framepace.begin_frame,
      Framepace.end_frame_state, Framepace.new_pacer, Framepace.next_slot,
      Framepace.EPSILON, Framepace.ACCURACY, Function.update]
